import Mathlib

/-!
Shallow embedding of the temporal cloud-resolve shader
(`src/packages/clouds/src/shaders/cloudsResolve.frag`) and the aerial
perspective compositor
(`src/packages/atmosphere/src/shaders/aerialPerspectiveEffect.frag`) of the
three-geospatial repository, together with proofs of the spec's claims about
them.  GLSL floats are modelled as exact rationals; texture buffers are
modelled as total functions from texel coordinates (or UVs) to texel values;
GLSL compile-time `#ifdef` switches are modelled as `Bool` parameters.
-/

set_option linter.unusedVariables false

/-- A GLSL `vec2` value. -/
structure Vec2 where
  x : ℚ
  y : ℚ
deriving DecidableEq

/-- A GLSL `vec3` value. -/
structure Vec3 where
  x : ℚ
  y : ℚ
  z : ℚ
deriving DecidableEq

/-- A GLSL `vec4` value, in rgba order. -/
structure Vec4 where
  r : ℚ
  g : ℚ
  b : ℚ
  a : ℚ
deriving DecidableEq

def v4zero : Vec4 := ⟨0, 0, 0, 0⟩

/-- Componentwise addition of `vec4` values. -/
def v4add (u v : Vec4) : Vec4 := ⟨u.r + v.r, u.g + v.g, u.b + v.b, u.a + v.a⟩

/-- Componentwise subtraction of `vec4` values. -/
def v4sub (u v : Vec4) : Vec4 := ⟨u.r - v.r, u.g - v.g, u.b - v.b, u.a - v.a⟩

/-- Componentwise product of `vec4` values. -/
def v4mul (u v : Vec4) : Vec4 := ⟨u.r * v.r, u.g * v.g, u.b * v.b, u.a * v.a⟩

/-- Scalar multiple of a `vec4` value. -/
def v4scale (s : ℚ) (v : Vec4) : Vec4 := ⟨s * v.r, s * v.g, s * v.b, s * v.a⟩

/-- GLSL `mix(x, y, a)` on `vec4`, componentwise `x * (1 - a) + y * a`. -/
def v4mix (u v : Vec4) (t : ℚ) : Vec4 :=
  ⟨u.r * (1 - t) + v.r * t, u.g * (1 - t) + v.g * t,
   u.b * (1 - t) + v.b * t, u.a * (1 - t) + v.a * t⟩

/-- GLSL `clamp(x, minVal, maxVal)` on floats. -/
def clampQ (x minVal maxVal : ℚ) : ℚ := min (max x minVal) maxVal

/-- GLSL `smoothstep(edge0, edge1, x)`: Hermite interpolation of the clamped
linear ramp.  (Undefined in GLSL when `edge0 ≥ edge1`; theorems assume
`edge0 < edge1`.) -/
def smoothstep (edge0 edge1 x : ℚ) : ℚ :=
  let t := clampQ ((x - edge0) / (edge1 - edge0)) 0 1
  t * t * (3 - 2 * t)

/-! ### cloudsResolve.frag -/

/-- The constant `neighborOffsets` array of cloudsResolve.frag: the 3×3
pixel neighborhood. -/
def neighborOffsets : List (ℤ × ℤ) :=
  [(-1, -1), (-1, 0), (-1, 1), (0, -1), (0, 0), (0, 1), (1, -1), (1, 0), (1, 1)]

/-- GLSL `texelFetchOffset(tex, coord, 0, off)` on an abstract buffer. -/
def fetchOffset (tex : ℤ × ℤ → Vec4) (coord off : ℤ × ℤ) : Vec4 :=
  tex (coord.1 + off.1, coord.2 + off.2)

/-- One step of `getClosestFragment`'s loop: keep the sample whose depth
channel (`r`) is strictly smaller. -/
def closerFrag (result neighbor : Vec4) : Vec4 :=
  if neighbor.r < result.r then neighbor else result

/-- `getClosestFragment` of cloudsResolve.frag: scan the 3×3 neighborhood of
the depth+velocity buffer, starting from the sentinel `vec4(1e7, 0, 0, 0)`,
keeping the sample with the strictly smallest depth channel. -/
def getClosestFragment (dv : ℤ × ℤ → Vec4) (coord : ℤ × ℤ) : Vec4 :=
  neighborOffsets.foldl (fun result off => closerFrag result (fetchOffset dv coord off))
    ⟨10000000, 0, 0, 0⟩

/-- The `bayerIndices` 4×4 matrix of cloudsResolve.frag, as a list of its
`mat4` columns. -/
def bayerIndices : List (List ℕ) :=
  [[0, 12, 3, 15], [8, 4, 11, 7], [2, 14, 1, 13], [10, 6, 9, 5]]

/-- `int(bayerIndices[coord.x % 4][coord.y % 4])` of cloudsResolve.frag. -/
def bayerValue (x y : ℕ) : ℕ :=
  (bayerIndices.getD (x % 4) []).getD (y % 4) 0

/-- The 3×3 window of current-buffer samples around `coord` read by the
variance-clipping primitive. -/
def windowSamples (tex : ℤ × ℤ → Vec4) (coord : ℤ × ℤ) : List Vec4 :=
  neighborOffsets.map (fetchOffset tex coord)

/-- Mean of the 3×3 current-buffer window, per channel. -/
def varMean (tex : ℤ × ℤ → Vec4) (coord : ℤ × ℤ) : Vec4 :=
  v4scale (1 / 9) ((windowSamples tex coord).foldl v4add v4zero)

/-- Mean of the squared samples of the 3×3 current-buffer window, per
channel. -/
def varSqMean (tex : ℤ × ℤ → Vec4) (coord : ℤ × ℤ) : Vec4 :=
  v4scale (1 / 9) ((windowSamples tex coord).foldl (fun acc v => v4add acc (v4mul v v)) v4zero)

/-- Population variance of the 3×3 current-buffer window, per channel. -/
def varVariance (tex : ℤ × ℤ → Vec4) (coord : ℤ × ℤ) : Vec4 :=
  v4sub (varSqMean tex coord) (v4mul (varMean tex coord) (varMean tex coord))

/-- Per-channel clipping factor: the largest `t ∈ [0, 1]` with
`|t * d| ≤ halfWidth` (for a nonnegative half-width). -/
def clipT (halfWidth d : ℚ) : ℚ :=
  if |d| ≤ halfWidth then 1 else halfWidth / |d|

/-- Modelled from the spec: the body of the `varianceClipping` shader include
is not under src (cloudsResolve.frag only has `#include "varianceClipping"`).
Spec §4.4: "compute mean and variance of the current-frame sample's local
window (e.g. 3×3) in the current buffer; build an axis-aligned box of
half-width = variance·gamma around the mean; clamp history_sample into that
box along the line from mean to history_sample." -/
def varianceClipping (tex : ℤ × ℤ → Vec4) (coord : ℤ × ℤ)
    (currentColor historyColor : Vec4) (gamma : ℚ) : Vec4 :=
  let mean := varMean tex coord
  let halfWidth := v4scale gamma (varVariance tex coord)
  let disp := v4sub historyColor mean
  let t := min (min (clipT halfWidth.r disp.r) (clipT halfWidth.g disp.g))
               (min (clipT halfWidth.b disp.b) (clipT halfWidth.a disp.a))
  v4add mean (v4scale t disp)

/-- The uniforms and the interpolated varying of cloudsResolve.frag.
`colorHistoryBuffer` is sampled with `texture` at a fractional UV, so it is a
function of the UV. -/
structure ResolveUniforms where
  colorBuffer : ℤ × ℤ → Vec4
  depthVelocityBuffer : ℤ × ℤ → Vec4
  colorHistoryBuffer : Vec2 → Vec4
  texelSize : Vec2
  frame : ℕ
  varianceGamma : ℚ
  temporalAlpha : ℚ
  vUv : Vec2

/-- The reprojected source UV of `temporalUpscale`:
`vUv - getClosestFragment(subCoord).gb * texelSize`. -/
def upscalePrevUv (u : ResolveUniforms) (subCoord : ℤ × ℤ) : Vec2 :=
  let depthVelocity := getClosestFragment u.depthVelocityBuffer subCoord
  ⟨u.vUv.x - depthVelocity.g * u.texelSize.x, u.vUv.y - depthVelocity.b * u.texelSize.y⟩

/-- The reprojected source UV of `temporalAntialias`:
`vUv - getClosestFragment(coord).gb * texelSize`. -/
def antialiasPrevUv (u : ResolveUniforms) (coord : ℤ × ℤ) : Vec2 :=
  let depthVelocity := getClosestFragment u.depthVelocityBuffer coord
  ⟨u.vUv.x - depthVelocity.g * u.texelSize.x, u.vUv.y - depthVelocity.b * u.texelSize.y⟩

/-- The history-rejection test of cloudsResolve.frag:
`prevUv.x < 0.0 || prevUv.x > 1.0 || prevUv.y < 0.0 || prevUv.y > 1.0`. -/
def uvOutside (v : Vec2) : Prop :=
  v.x < 0 ∨ v.x > 1 ∨ v.y < 0 ∨ v.y > 1

instance (v : Vec2) : Decidable (uvOutside v) := by
  unfold uvOutside
  infer_instance

/-- `temporalUpscale` of cloudsResolve.frag (color channel; the optional
`SHADOW_LENGTH` channel compiles out). -/
def temporalUpscale (u : ResolveUniforms) (coord subCoord : ℤ × ℤ)
    (currentFrame : Bool) : Vec4 :=
  let currentColor := u.colorBuffer subCoord
  if currentFrame then
    currentColor
  else if uvOutside (upscalePrevUv u subCoord) then
    currentColor
  else
    let historyColor := u.colorHistoryBuffer (upscalePrevUv u subCoord)
    varianceClipping u.colorBuffer subCoord currentColor historyColor u.varianceGamma

/-- `temporalAntialias` of cloudsResolve.frag (color channel).  The 4-argument
`varianceClipping` call is the default-gamma overload; per spec §4.4 the
default gamma is 1. -/
def temporalAntialias (u : ResolveUniforms) (coord : ℤ × ℤ) : Vec4 :=
  let currentColor := u.colorBuffer coord
  if uvOutside (antialiasPrevUv u coord) then
    currentColor
  else
    let historyColor := u.colorHistoryBuffer (antialiasPrevUv u coord)
    v4mix (varianceClipping u.colorBuffer coord currentColor historyColor 1) currentColor
      u.temporalAlpha

/-- `coord / 4` of cloudsResolve.frag's main, on the nonnegative fragment
coordinate. -/
def upscaleSubCoord (fragCoord : ℕ × ℕ) : ℤ × ℤ :=
  ((fragCoord.1 / 4 : ℕ), (fragCoord.2 / 4 : ℕ))

/-- `main` of cloudsResolve.frag: dispatch on the `TEMPORAL_UPSCALING`
compile-time switch; in upscaling mode a pixel is "current" when its Bayer
matrix entry equals `frame % 16`. -/
def cloudsResolveMain (u : ResolveUniforms) (fragCoord : ℕ × ℕ)
    (temporalUpscaling : Bool) : Vec4 :=
  let coord : ℤ × ℤ := ((fragCoord.1 : ℤ), (fragCoord.2 : ℤ))
  if temporalUpscaling then
    temporalUpscale u coord (upscaleSubCoord fragCoord)
      (bayerValue fragCoord.1 fragCoord.2 == u.frame % 16)
  else
    temporalAntialias u coord

/-! ### aerialPerspectiveEffect.frag -/

def v3zero : Vec3 := ⟨0, 0, 0⟩

/-- Componentwise addition of `vec3` values. -/
def v3add (u v : Vec3) : Vec3 := ⟨u.x + v.x, u.y + v.y, u.z + v.z⟩

/-- Componentwise subtraction of `vec3` values. -/
def v3sub (u v : Vec3) : Vec3 := ⟨u.x - v.x, u.y - v.y, u.z - v.z⟩

/-- Componentwise product of `vec3` values. -/
def v3mulv (u v : Vec3) : Vec3 := ⟨u.x * v.x, u.y * v.y, u.z * v.z⟩

/-- Scalar multiple of a `vec3` value. -/
def v3scale (s : ℚ) (v : Vec3) : Vec3 := ⟨s * v.x, s * v.y, s * v.z⟩

/-- GLSL `mix(x, y, a)` on `vec3`. -/
def v3mix (u v : Vec3) (t : ℚ) : Vec3 :=
  ⟨u.x * (1 - t) + v.x * t, u.y * (1 - t) + v.y * t, u.z * (1 - t) + v.z * t⟩

/-- GLSL `1.0 / v` on a `vec3` (componentwise reciprocal). -/
def v3recip (v : Vec3) : Vec3 := ⟨1 / v.x, 1 / v.y, 1 / v.z⟩

/-- GLSL `cross(a, b)`. -/
def cross3 (u v : Vec3) : Vec3 :=
  ⟨u.y * v.z - u.z * v.y, u.z * v.x - u.x * v.z, u.x * v.y - u.y * v.x⟩

/-- A GLSL `mat4`, written row by row. -/
structure Mat4 where
  m11 : ℚ
  m12 : ℚ
  m13 : ℚ
  m14 : ℚ
  m21 : ℚ
  m22 : ℚ
  m23 : ℚ
  m24 : ℚ
  m31 : ℚ
  m32 : ℚ
  m33 : ℚ
  m34 : ℚ
  m41 : ℚ
  m42 : ℚ
  m43 : ℚ
  m44 : ℚ
deriving DecidableEq

/-- `(m * vec4(v, 1.0)).xyz` for a `mat4` `m`. -/
def mat4MulPoint (m : Mat4) (v : Vec3) : Vec3 :=
  ⟨m.m11 * v.x + m.m12 * v.y + m.m13 * v.z + m.m14,
   m.m21 * v.x + m.m22 * v.y + m.m23 * v.z + m.m24,
   m.m31 * v.x + m.m32 * v.y + m.m33 * v.z + m.m34⟩

/-- `mat3(m) * v`: the 3×3 rotation part of a `mat4` applied to a
direction. -/
def mat3MulDir (m : Mat4) (v : Vec3) : Vec3 :=
  ⟨m.m11 * v.x + m.m12 * v.y + m.m13 * v.z,
   m.m21 * v.x + m.m22 * v.y + m.m23 * v.z,
   m.m31 * v.x + m.m32 * v.y + m.m33 * v.z⟩

/-- The `RECIPROCAL_PI` define (a float literal in the GLSL common chunk). -/
def RECIPROCAL_PI : ℚ := 0.3183098861837907

/-- The compile-time feature switches of aerialPerspectiveEffect.frag. -/
structure AerialDefines where
  octEncodedNormal : Bool
  reconstructNormal : Bool
  correctGeometricError : Bool
  sunIrradiance : Bool
  skyIrradiance : Bool
  transmittance : Bool
  inscatter : Bool

/-- The external collaborator functions of aerialPerspectiveEffect.frag: GLSL
builtins that are not rational-valued (`normalize`), screen-space derivatives,
and the functions supplied by other shader chunks that are not under src
(`readDepth`, `reverseLogDepth`, `getViewZ`, `screenToView`,
`unpackVec2ToNormal`, `GetSunAndSkyIrradiance`, `GetSkyRadianceToPoint`).
They are opaque parameters of the embedding; `getSunAndSkyIrradiance` returns
(sun irradiance, sky irradiance) and `getSkyRadianceToPoint` returns
(inscatter, transmittance). -/
structure AerialExternals where
  readDepth : Vec2 → ℚ
  reverseLogDepth : ℚ → ℚ → ℚ → ℚ
  getViewZ : ℚ → ℚ
  screenToView : Vec2 → ℚ → ℚ → Mat4 → Mat4 → Vec3
  unpackVec2ToNormal : Vec2 → Vec3
  normalizeV : Vec3 → Vec3
  dFdx : Vec3 → Vec3
  dFdy : Vec3 → Vec3
  getSunAndSkyIrradiance : Vec3 → Vec3 → Vec3 → Vec3 × Vec3
  getSkyRadianceToPoint : Vec3 → Vec3 → ℚ → Vec3 → Vec3 × Vec3

/-- The uniforms, varyings and defines-with-values of
aerialPerspectiveEffect.frag. -/
structure AerialUniforms where
  normalBuffer : Vec2 → Vec4
  projectionMatrix : Mat4
  inverseProjectionMatrix : Mat4
  inverseViewMatrix : Mat4
  cameraHeight : ℚ
  geometricErrorAltitudeRange : Vec2
  sunDirection : Vec3
  irradianceScale : ℚ
  vWorldPosition : Vec3
  vEllipsoidCenter : Vec3
  vEllipsoidRadiiSquared : Vec3
  cameraNear : ℚ
  cameraFar : ℚ
  u_bottom_radius : ℚ
  METER_TO_UNIT_LENGTH : ℚ

/-- `readNormal` of aerialPerspectiveEffect.frag. -/
def readNormal (d : AerialDefines) (e : AerialExternals) (u : AerialUniforms)
    (uv : Vec2) : Vec3 :=
  if d.octEncodedNormal then
    e.unpackVec2ToNormal ⟨(u.normalBuffer uv).r, (u.normalBuffer uv).g⟩
  else
    v3sub (v3scale 2 ⟨(u.normalBuffer uv).r, (u.normalBuffer uv).g, (u.normalBuffer uv).b⟩)
      ⟨1, 1, 1⟩

/-- The ellipsoid-derived normal of `correctGeometricError`:
`normalize(1.0 / vEllipsoidRadiiSquared * worldPosition)`. -/
def ellipsoidNormal (e : AerialExternals) (u : AerialUniforms)
    (worldPosition : Vec3) : Vec3 :=
  e.normalizeV (v3mulv (v3recip u.vEllipsoidRadiiSquared) worldPosition)

/-- `correctGeometricError` of aerialPerspectiveEffect.frag: blend the
reconstructed position and normal toward the ellipsoid-derived ones by
`t = smoothstep(minHeight, maxHeight, cameraHeight)`. -/
def correctGeometricError (e : AerialExternals) (u : AerialUniforms)
    (minHeight maxHeight : ℚ) (worldPosition worldNormal : Vec3) : Vec3 × Vec3 :=
  let normal := ellipsoidNormal e u worldPosition
  let position := v3scale u.u_bottom_radius normal
  let t := smoothstep minHeight maxHeight u.cameraHeight
  (v3mix worldPosition position t, v3mix worldNormal normal t)

/-- `getSunSkyIrradiance` of aerialPerspectiveEffect.frag (compiled only when
`SUN_IRRADIANCE` or `SKY_IRRADIANCE` is defined; the all-false branch is
unreachable under that guard). -/
def getSunSkyIrradiance (d : AerialDefines) (e : AerialExternals)
    (u : AerialUniforms) (worldPosition worldNormal inputColor : Vec3) : Vec3 :=
  let albedo := v3scale (u.irradianceScale * RECIPROCAL_PI) inputColor
  let p := e.getSunAndSkyIrradiance (v3sub worldPosition u.vEllipsoidCenter) worldNormal
    u.sunDirection
  if d.sunIrradiance && d.skyIrradiance then v3mulv albedo (v3add p.1 p.2)
  else if d.sunIrradiance then v3mulv albedo p.1
  else if d.skyIrradiance then v3mulv albedo p.2
  else v3zero

/-- `getTransmittanceInscatter` of aerialPerspectiveEffect.frag. -/
def getTransmittanceInscatter (d : AerialDefines) (e : AerialExternals)
    (u : AerialUniforms) (worldPosition worldNormal radiance : Vec3) : Vec3 :=
  let p := e.getSkyRadianceToPoint (v3sub u.vWorldPosition u.vEllipsoidCenter)
    (v3sub worldPosition u.vEllipsoidCenter) 0 u.sunDirection
  let r1 := if d.transmittance then v3mulv radiance p.2 else radiance
  if d.inscatter then v3add r1 p.1 else r1

/-- `mainImage` of aerialPerspectiveEffect.frag.  Pixels whose depth is within
`1e-7` of the far plane pass through unmodified; otherwise position and normal
are reconstructed, optionally corrected toward the ellipsoid, shaded and
composed with transmittance/inscatter; the output alpha is the input alpha. -/
def mainImage (d : AerialDefines) (e : AerialExternals) (u : AerialUniforms)
    (inputColor : Vec4) (uv : Vec2) : Vec4 :=
  let depth := e.readDepth uv
  if depth ≥ 1 - 1 / 10000000 then
    inputColor
  else
    let depth2 := e.reverseLogDepth depth u.cameraNear u.cameraFar
    let viewPosition := e.screenToView uv depth2 (e.getViewZ depth2) u.projectionMatrix
      u.inverseProjectionMatrix
    let viewNormal :=
      if d.reconstructNormal then
        e.normalizeV (cross3 (e.dFdx viewPosition) (e.dFdy viewPosition))
      else
        readNormal d e u uv
    let worldPosition :=
      v3scale u.METER_TO_UNIT_LENGTH (mat4MulPoint u.inverseViewMatrix viewPosition)
    let worldNormal := e.normalizeV (mat3MulDir u.inverseViewMatrix viewNormal)
    let pn :=
      if d.correctGeometricError then
        correctGeometricError e u u.geometricErrorAltitudeRange.x
          u.geometricErrorAltitudeRange.y worldPosition worldNormal
      else
        (worldPosition, worldNormal)
    let radiance :=
      if d.sunIrradiance || d.skyIrradiance then
        getSunSkyIrradiance d e u pn.1 pn.2 ⟨inputColor.r, inputColor.g, inputColor.b⟩
      else
        ⟨inputColor.r, inputColor.g, inputColor.b⟩
    let radiance2 :=
      if d.transmittance || d.inscatter then
        getTransmittanceInscatter d e u pn.1 pn.2 radiance
      else
        radiance
    ⟨radiance2.x, radiance2.y, radiance2.z, inputColor.a⟩

/-! ### useCloudsControls (src/unnamed/part_001) -/

/-- The seven `debug` folder checkboxes of `useCloudsControls`: independent
booleans, one per visualization override. -/
structure CloudsDebugControls where
  showSampleCount : Bool
  showFrontDepth : Bool
  showShadowMap : Bool
  showCascades : Bool
  showUv : Bool
  showShadowLength : Bool
  showVelocity : Bool
deriving DecidableEq

/-- The `toneMapping` flag returned by `useCloudsControls`:
`!showSampleCount && !showFrontDepth && !showUv && !showShadowMap &&
!showShadowLength`. -/
def cloudsToneMapping (c : CloudsDebugControls) : Bool :=
  !c.showSampleCount && !c.showFrontDepth && !c.showUv && !c.showShadowMap &&
    !c.showShadowLength

/-- Whether any of the seven debug visualization overrides is active. -/
def debugVisualizationActive (c : CloudsDebugControls) : Bool :=
  c.showSampleCount || c.showFrontDepth || c.showShadowMap || c.showCascades ||
    c.showUv || c.showShadowLength || c.showVelocity

/-- How many of the seven debug visualization overrides are active. -/
def debugVisualizationCount (c : CloudsDebugControls) : ℕ :=
  c.showSampleCount.toNat + c.showFrontDepth.toNat + c.showShadowMap.toNat +
    c.showCascades.toNat + c.showUv.toNat + c.showShadowLength.toNat +
    c.showVelocity.toNat

/-! ### Concrete instances used by witnesses and counterexamples -/

/-- An all-zero depth+velocity buffer: every sample has depth 0 and zero
velocity. -/
def zeroDV : ℤ × ℤ → Vec4 := fun _ => v4zero

/-- Resolve uniforms whose reprojected UV is `(-1e-4, 1/2)`: zero velocity
everywhere and `vUv = (-1/10000, 1/2)`. -/
def uReject : ResolveUniforms :=
  { colorBuffer := fun _ => ⟨1, 2, 3, 4⟩
    depthVelocityBuffer := zeroDV
    colorHistoryBuffer := fun _ => ⟨9, 9, 9, 9⟩
    texelSize := ⟨1 / 100, 1 / 100⟩
    frame := 0
    varianceGamma := 1
    temporalAlpha := 1 / 10
    vUv := ⟨-1 / 10000, 1 / 2⟩ }

/-- Resolve uniforms whose reprojected UV is exactly `(0, 1/2)`: zero velocity
everywhere and `vUv = (0, 1/2)`. -/
def uAccept : ResolveUniforms :=
  { colorBuffer := fun _ => ⟨1, 2, 3, 4⟩
    depthVelocityBuffer := zeroDV
    colorHistoryBuffer := fun _ => ⟨9, 9, 9, 9⟩
    texelSize := ⟨1 / 100, 1 / 100⟩
    frame := 0
    varianceGamma := 1
    temporalAlpha := 1 / 10
    vUv := ⟨0, 1 / 2⟩ }

/-- Resolve uniforms whose depth+velocity buffer has every depth at `2e7`
(all beyond the `1e7` sentinel) with a nonzero velocity channel. -/
def uSentinel : ResolveUniforms :=
  { colorBuffer := fun _ => ⟨1, 2, 3, 4⟩
    depthVelocityBuffer := fun _ => ⟨20000000, 5, 5, 0⟩
    colorHistoryBuffer := fun _ => ⟨6, 7, 8, 9⟩
    texelSize := ⟨1 / 100, 1 / 100⟩
    frame := 3
    varianceGamma := 4
    temporalAlpha := 1 / 10
    vUv := ⟨1 / 2, 1 / 2⟩ }

/-- A depth+velocity buffer with a unique closest fragment at `(0, 0)`. -/
def dvC7W : ℤ × ℤ → Vec4 :=
  fun p => if p = (0, 0) then ⟨5, 7, 9, 0⟩ else ⟨99, 1, 2, 3⟩

/-- A depth+velocity buffer all of whose depths are `2e7 ≥ 1e7`, with nonzero
velocities. -/
def dvC7 : ℤ × ℤ → Vec4 := fun _ => ⟨20000000, 5, 5, 0⟩

/-- A constant current-frame buffer (window variance 0). -/
def texC6W : ℤ × ℤ → Vec4 := fun _ => ⟨2, 2, 2, 2⟩

/-- A current-frame buffer whose 3×3 window at `(0, 0)` has mean 1 and
variance 8 in every channel. -/
def texC6 : ℤ × ℤ → Vec4 := fun p => if p = (0, 0) then ⟨9, 9, 9, 9⟩ else v4zero

def aerialDefinesW : AerialDefines := ⟨true, false, true, true, true, true, true⟩

def matIdent : Mat4 := ⟨1, 0, 0, 0, 0, 1, 0, 0, 0, 0, 1, 0, 0, 0, 0, 1⟩

/-- Concrete collaborator functions whose `readDepth` is constantly 1 (the far
plane). -/
def aerialExternalsW : AerialExternals :=
  { readDepth := fun _ => 1
    reverseLogDepth := fun dep _ _ => dep
    getViewZ := fun _ => 0
    screenToView := fun _ _ _ _ _ => v3zero
    unpackVec2ToNormal := fun _ => v3zero
    normalizeV := fun v => v
    dFdx := fun _ => v3zero
    dFdy := fun _ => v3zero
    getSunAndSkyIrradiance := fun _ _ _ => (v3zero, v3zero)
    getSkyRadianceToPoint := fun _ _ _ _ => (v3zero, v3zero) }

def aerialUniformsW : AerialUniforms :=
  { normalBuffer := fun _ => v4zero
    projectionMatrix := matIdent
    inverseProjectionMatrix := matIdent
    inverseViewMatrix := matIdent
    cameraHeight := 2000
    geometricErrorAltitudeRange := ⟨40000, 50000⟩
    sunDirection := ⟨0, 0, 1⟩
    irradianceScale := 1
    vWorldPosition := v3zero
    vEllipsoidCenter := v3zero
    vEllipsoidRadiiSquared := ⟨1, 1, 1⟩
    cameraNear := 1 / 10
    cameraFar := 1000000
    u_bottom_radius := 6360000
    METER_TO_UNIT_LENGTH := 1 }

/-- A debug-control state with both the cascade and the velocity
visualizations active. -/
def debugControlsCex : CloudsDebugControls :=
  ⟨false, false, false, true, false, false, true⟩

/-! ### Helper lemmas -/

lemma foldl_closerFrag_init_or_mem (l : List Vec4) (init : Vec4) :
    l.foldl closerFrag init = init ∨ l.foldl closerFrag init ∈ l := by
  induction l generalizing init with
  | nil => exact Or.inl rfl
  | cons a l ih =>
    rcases ih (closerFrag init a) with h | h
    · rw [List.foldl_cons, h]
      unfold closerFrag
      split
      · exact Or.inr (List.mem_cons_self _ _)
      · exact Or.inl rfl
    · exact Or.inr (List.mem_cons_of_mem _ h)

lemma foldl_closerFrag_le (l : List Vec4) (init : Vec4) :
    (l.foldl closerFrag init).r ≤ init.r ∧
      ∀ v ∈ l, (l.foldl closerFrag init).r ≤ v.r := by
  induction l generalizing init with
  | nil => exact ⟨le_refl _, by simp⟩
  | cons a l ih =>
    obtain ⟨h1, h2⟩ := ih (closerFrag init a)
    have hinit : (closerFrag init a).r ≤ init.r ∧ (closerFrag init a).r ≤ a.r := by
      unfold closerFrag
      split
      · next h => exact ⟨le_of_lt h, le_refl _⟩
      · next h => exact ⟨le_refl _, le_of_not_lt h⟩
    refine ⟨le_trans h1 hinit.1, ?_⟩
    intro v hv
    rcases List.mem_cons.1 hv with rfl | hv
    · exact le_trans h1 hinit.2
    · exact h2 v hv

lemma foldl_closerFrag_keep (l : List Vec4) (init : Vec4)
    (h : ∀ v ∈ l, init.r ≤ v.r) : l.foldl closerFrag init = init := by
  induction l with
  | nil => rfl
  | cons a l ih =>
    rw [List.foldl_cons]
    have ha : closerFrag init a = init := by
      unfold closerFrag
      rw [if_neg (not_lt.2 (h a (List.mem_cons_self _ _)))]
    rw [ha]
    exact ih fun v hv => h v (List.mem_cons_of_mem _ hv)

lemma getClosestFragment_as_foldl (dv : ℤ × ℤ → Vec4) (coord : ℤ × ℤ) :
    getClosestFragment dv coord =
      (neighborOffsets.map (fetchOffset dv coord)).foldl closerFrag
        ⟨10000000, 0, 0, 0⟩ := by
  rw [getClosestFragment, List.foldl_map]

lemma nineVarNonneg (a b c d e f g h i : ℚ) :
    0 ≤ (a * a + b * b + c * c + d * d + e * e + f * f + g * g + h * h + i * i) / 9
        - ((a + b + c + d + e + f + g + h + i) / 9) *
          ((a + b + c + d + e + f + g + h + i) / 9) := by
  linarith [sq_nonneg (a - b), sq_nonneg (a - c), sq_nonneg (a - d), sq_nonneg (a - e),
    sq_nonneg (a - f), sq_nonneg (a - g), sq_nonneg (a - h), sq_nonneg (a - i),
    sq_nonneg (b - c), sq_nonneg (b - d), sq_nonneg (b - e), sq_nonneg (b - f),
    sq_nonneg (b - g), sq_nonneg (b - h), sq_nonneg (b - i),
    sq_nonneg (c - d), sq_nonneg (c - e), sq_nonneg (c - f), sq_nonneg (c - g),
    sq_nonneg (c - h), sq_nonneg (c - i),
    sq_nonneg (d - e), sq_nonneg (d - f), sq_nonneg (d - g), sq_nonneg (d - h),
    sq_nonneg (d - i),
    sq_nonneg (e - f), sq_nonneg (e - g), sq_nonneg (e - h), sq_nonneg (e - i),
    sq_nonneg (f - g), sq_nonneg (f - h), sq_nonneg (f - i),
    sq_nonneg (g - h), sq_nonneg (g - i),
    sq_nonneg (h - i)]

lemma clipT_nonneg (hw d : ℚ) (h : 0 ≤ hw) : 0 ≤ clipT hw d := by
  unfold clipT
  split
  · norm_num
  · exact div_nonneg h (abs_nonneg d)

lemma clipT_le_one (hw d : ℚ) (h : 0 ≤ hw) : clipT hw d ≤ 1 := by
  unfold clipT
  split
  · exact le_refl 1
  · next hd =>
    exact le_of_lt ((div_lt_one (lt_of_le_of_lt h (not_le.1 hd))).2 (not_le.1 hd))

lemma clipT_bound (hw d t : ℚ) (hhw : 0 ≤ hw) (ht0 : 0 ≤ t)
    (htle : t ≤ clipT hw d) : |t * d| ≤ hw := by
  rw [abs_mul, abs_of_nonneg ht0]
  unfold clipT at htle
  split at htle
  · next hd =>
    calc t * |d| ≤ 1 * |d| := mul_le_mul_of_nonneg_right htle (abs_nonneg d)
      _ = |d| := one_mul _
      _ ≤ hw := hd
  · next hd =>
    have hdpos : 0 < |d| := lt_of_le_of_lt hhw (not_le.1 hd)
    calc t * |d| ≤ hw / |d| * |d| := mul_le_mul_of_nonneg_right htle (abs_nonneg d)
      _ = hw := div_mul_cancel₀ hw (ne_of_gt hdpos)

lemma varVariance_nonneg (tex : ℤ × ℤ → Vec4) (coord : ℤ × ℤ) :
    0 ≤ (varVariance tex coord).r ∧ 0 ≤ (varVariance tex coord).g ∧
      0 ≤ (varVariance tex coord).b ∧ 0 ≤ (varVariance tex coord).a := by
  refine ⟨?_, ?_, ?_, ?_⟩
  · have h := nineVarNonneg (fetchOffset tex coord (-1, -1)).r
      (fetchOffset tex coord (-1, 0)).r (fetchOffset tex coord (-1, 1)).r
      (fetchOffset tex coord (0, -1)).r (fetchOffset tex coord (0, 0)).r
      (fetchOffset tex coord (0, 1)).r (fetchOffset tex coord (1, -1)).r
      (fetchOffset tex coord (1, 0)).r (fetchOffset tex coord (1, 1)).r
    simp only [varVariance, varSqMean, varMean, windowSamples, neighborOffsets,
      List.map_cons, List.map_nil, List.foldl_cons, List.foldl_nil, v4add, v4zero,
      v4scale, v4mul, v4sub]
    linarith [h]
  · have h := nineVarNonneg (fetchOffset tex coord (-1, -1)).g
      (fetchOffset tex coord (-1, 0)).g (fetchOffset tex coord (-1, 1)).g
      (fetchOffset tex coord (0, -1)).g (fetchOffset tex coord (0, 0)).g
      (fetchOffset tex coord (0, 1)).g (fetchOffset tex coord (1, -1)).g
      (fetchOffset tex coord (1, 0)).g (fetchOffset tex coord (1, 1)).g
    simp only [varVariance, varSqMean, varMean, windowSamples, neighborOffsets,
      List.map_cons, List.map_nil, List.foldl_cons, List.foldl_nil, v4add, v4zero,
      v4scale, v4mul, v4sub]
    linarith [h]
  · have h := nineVarNonneg (fetchOffset tex coord (-1, -1)).b
      (fetchOffset tex coord (-1, 0)).b (fetchOffset tex coord (-1, 1)).b
      (fetchOffset tex coord (0, -1)).b (fetchOffset tex coord (0, 0)).b
      (fetchOffset tex coord (0, 1)).b (fetchOffset tex coord (1, -1)).b
      (fetchOffset tex coord (1, 0)).b (fetchOffset tex coord (1, 1)).b
    simp only [varVariance, varSqMean, varMean, windowSamples, neighborOffsets,
      List.map_cons, List.map_nil, List.foldl_cons, List.foldl_nil, v4add, v4zero,
      v4scale, v4mul, v4sub]
    linarith [h]
  · have h := nineVarNonneg (fetchOffset tex coord (-1, -1)).a
      (fetchOffset tex coord (-1, 0)).a (fetchOffset tex coord (-1, 1)).a
      (fetchOffset tex coord (0, -1)).a (fetchOffset tex coord (0, 0)).a
      (fetchOffset tex coord (0, 1)).a (fetchOffset tex coord (1, -1)).a
      (fetchOffset tex coord (1, 0)).a (fetchOffset tex coord (1, 1)).a
    simp only [varVariance, varSqMean, varMean, windowSamples, neighborOffsets,
      List.map_cons, List.map_nil, List.foldl_cons, List.foldl_nil, v4add, v4zero,
      v4scale, v4mul, v4sub]
    linarith [h]

lemma cubicMono (a b : ℚ) (h0 : 0 ≤ a) (hab : a ≤ b) (h1 : b ≤ 1) :
    a * a * (3 - 2 * a) ≤ b * b * (3 - 2 * b) := by
  nlinarith [mul_nonneg h0 (sub_nonneg.2 (le_trans hab h1)),
    mul_nonneg (le_trans h0 hab) (sub_nonneg.2 h1),
    mul_nonneg (sub_nonneg.2 hab) (mul_nonneg h0 (sub_nonneg.2 (le_trans hab h1))),
    mul_nonneg (sub_nonneg.2 hab) (mul_nonneg (le_trans h0 hab) (sub_nonneg.2 h1)),
    mul_nonneg (sub_nonneg.2 hab) (mul_nonneg (add_nonneg h0 (le_trans h0 hab))
      (by linarith : (0 : ℚ) ≤ 2 - a - b))]

lemma smoothstep_zero (e0 e1 x : ℚ) (hlt : e0 < e1) (hx : x ≤ e0) :
    smoothstep e0 e1 x = 0 := by
  unfold smoothstep clampQ
  have hr : (x - e0) / (e1 - e0) ≤ 0 :=
    div_nonpos_iff.2 (Or.inr ⟨by linarith, by linarith⟩)
  rw [max_eq_right hr, min_eq_left (by norm_num : (0 : ℚ) ≤ 1)]
  ring

lemma smoothstep_one (e0 e1 x : ℚ) (hlt : e0 < e1) (hx : e1 ≤ x) :
    smoothstep e0 e1 x = 1 := by
  unfold smoothstep clampQ
  have hd : (0 : ℚ) < e1 - e0 := by linarith
  have hr : (1 : ℚ) ≤ (x - e0) / (e1 - e0) := (one_le_div hd).2 (by linarith)
  rw [max_eq_left (le_trans (by norm_num) hr), min_eq_right hr]
  ring

lemma smoothstep_mono (e0 e1 x1 x2 : ℚ) (hlt : e0 < e1) (hx : x1 ≤ x2) :
    smoothstep e0 e1 x1 ≤ smoothstep e0 e1 x2 := by
  unfold smoothstep clampQ
  have hd : (0 : ℚ) < e1 - e0 := by linarith
  have hr : (x1 - e0) / (e1 - e0) ≤ (x2 - e0) / (e1 - e0) :=
    (div_le_div_iff_of_pos_right hd).2 (by linarith)
  have hmono : min (max ((x1 - e0) / (e1 - e0)) 0) 1 ≤
      min (max ((x2 - e0) / (e1 - e0)) 0) 1 :=
    min_le_min (max_le_max hr (le_refl 0)) (le_refl 1)
  exact cubicMono _ _ (le_min (le_max_right _ _) (by norm_num)) hmono (min_le_right _ _)

/-! ### Claim theorems -/

/-- Claim C1 (checkerboard coverage): the 4×4 Bayer matrix of
cloudsResolve.frag contains each priority in `[0, 16)` exactly once, and for
every sub-pixel position `(x, y)` and any 16 consecutive frame indices
`n, …, n + 15` the "current" condition `bayerValue x y = frame % 16` holds for
exactly one of those frames. -/
theorem bayer_checkerboard_coverage :
    bayerIndices.flatten.Perm (List.range 16) ∧
    ∀ x y n : ℕ, ∃! i : ℕ, i < 16 ∧ bayerValue x y = (n + i) % 16 := by
  constructor
  · decide
  · intro x y n
    have hb : ∀ a < 4, ∀ b < 4, (bayerIndices.getD a []).getD b 0 < 16 := by decide
    have hk : bayerValue x y < 16 :=
      hb (x % 4) (Nat.mod_lt _ (by norm_num)) (y % 4) (Nat.mod_lt _ (by norm_num))
    refine ⟨(16 + bayerValue x y - n % 16) % 16,
      ⟨Nat.mod_lt _ (by norm_num), by omega⟩, ?_⟩
    rintro j ⟨hj, hjeq⟩
    omega

/-- Claim C2 (disocclusion rejection): in both temporal modes, when the
reprojected source UV has a coordinate strictly outside `[0, 1]` the output is
the raw current-frame sample with no history contribution; a reprojected UV
with `x = 0` and `y` inside `[0, 1]` is accepted, i.e. the history-using
branch is taken (variance-clipped history in upscale mode, the
`mix(clipped, current, temporalAlpha)` blend in antialias mode). -/
theorem resolve_disocclusion (u : ResolveUniforms) (coord subCoord : ℤ × ℤ) :
    (uvOutside (upscalePrevUv u subCoord) →
      ∀ currentFrame : Bool,
        temporalUpscale u coord subCoord currentFrame = u.colorBuffer subCoord) ∧
    (uvOutside (antialiasPrevUv u coord) →
      temporalAntialias u coord = u.colorBuffer coord) ∧
    ((upscalePrevUv u subCoord).x = 0 → 0 ≤ (upscalePrevUv u subCoord).y →
      (upscalePrevUv u subCoord).y ≤ 1 →
      temporalUpscale u coord subCoord false =
        varianceClipping u.colorBuffer subCoord (u.colorBuffer subCoord)
          (u.colorHistoryBuffer (upscalePrevUv u subCoord)) u.varianceGamma) ∧
    ((antialiasPrevUv u coord).x = 0 → 0 ≤ (antialiasPrevUv u coord).y →
      (antialiasPrevUv u coord).y ≤ 1 →
      temporalAntialias u coord =
        v4mix (varianceClipping u.colorBuffer coord (u.colorBuffer coord)
            (u.colorHistoryBuffer (antialiasPrevUv u coord)) 1)
          (u.colorBuffer coord) u.temporalAlpha) := by
  refine ⟨?_, ?_, ?_, ?_⟩
  · intro hout currentFrame
    cases currentFrame
    · simp only [temporalUpscale, Bool.false_eq_true, if_false]
      rw [if_pos hout]
    · rfl
  · intro hout
    simp only [temporalAntialias]
    rw [if_pos hout]
  · intro hx hy0 hy1
    have hno : ¬uvOutside (upscalePrevUv u subCoord) := by
      unfold uvOutside
      push_neg
      exact ⟨le_of_eq hx.symm, by rw [hx]; norm_num, hy0, hy1⟩
    simp only [temporalUpscale, Bool.false_eq_true, if_false]
    rw [if_neg hno]
  · intro hx hy0 hy1
    have hno : ¬uvOutside (antialiasPrevUv u coord) := by
      unfold uvOutside
      push_neg
      exact ⟨le_of_eq hx.symm, by rw [hx]; norm_num, hy0, hy1⟩
    simp only [temporalAntialias]
    rw [if_neg hno]

/-- Claim C2 witness: with zero velocity, the reprojected UV `(-1e-4, 1/2)` is
rejected in both modes (output is the raw current sample) and the reprojected
UV `(0, 1/2)` on the boundary is accepted in both modes (the history-using
branch is taken). -/
theorem resolve_disocclusion_witness :
    (temporalUpscale uReject (0, 0) (0, 0) false = uReject.colorBuffer (0, 0) ∧
     temporalAntialias uReject (0, 0) = uReject.colorBuffer (0, 0)) ∧
    (temporalUpscale uAccept (0, 0) (0, 0) false =
       varianceClipping uAccept.colorBuffer (0, 0) (uAccept.colorBuffer (0, 0))
         (uAccept.colorHistoryBuffer (upscalePrevUv uAccept (0, 0)))
         uAccept.varianceGamma ∧
     temporalAntialias uAccept (0, 0) =
       v4mix (varianceClipping uAccept.colorBuffer (0, 0) (uAccept.colorBuffer (0, 0))
           (uAccept.colorHistoryBuffer (antialiasPrevUv uAccept (0, 0))) 1)
         (uAccept.colorBuffer (0, 0)) uAccept.temporalAlpha) := by
  have hrej : upscalePrevUv uReject (0, 0) = ⟨-1 / 10000, 1 / 2⟩ := by
    norm_num [upscalePrevUv, getClosestFragment, neighborOffsets, fetchOffset, closerFrag,
      uReject, zeroDV, v4zero]
  have hrej2 : antialiasPrevUv uReject (0, 0) = ⟨-1 / 10000, 1 / 2⟩ := by
    norm_num [antialiasPrevUv, getClosestFragment, neighborOffsets, fetchOffset, closerFrag,
      uReject, zeroDV, v4zero]
  have hacc : upscalePrevUv uAccept (0, 0) = ⟨0, 1 / 2⟩ := by
    norm_num [upscalePrevUv, getClosestFragment, neighborOffsets, fetchOffset, closerFrag,
      uAccept, zeroDV, v4zero]
  have hacc2 : antialiasPrevUv uAccept (0, 0) = ⟨0, 1 / 2⟩ := by
    norm_num [antialiasPrevUv, getClosestFragment, neighborOffsets, fetchOffset, closerFrag,
      uAccept, zeroDV, v4zero]
  have hr := resolve_disocclusion uReject (0, 0) (0, 0)
  have ha := resolve_disocclusion uAccept (0, 0) (0, 0)
  refine ⟨⟨hr.1 ?_ false, hr.2.1 ?_⟩, ⟨ha.2.2.1 ?_ ?_ ?_, ha.2.2.2 ?_ ?_ ?_⟩⟩
  · rw [hrej]; unfold uvOutside; norm_num
  · rw [hrej2]; unfold uvOutside; norm_num
  · rw [hacc]
  · rw [hacc]; norm_num
  · rw [hacc]; norm_num
  · rw [hacc2]
  · rw [hacc2]; norm_num
  · rw [hacc2]; norm_num

/-- Claim C3 (upscale-mode postcondition): a pixel whose sub-pixel priority
matches the current frame outputs the raw current-frame sample with no
accumulation (both at the `temporalUpscale` level and through `main`'s Bayer
dispatch), and any non-matching pixel whose reprojected UV lies inside
`[0, 1]²` outputs exactly the variance-clipped history sample, with no blend
toward the current sample. -/
theorem upscale_postcondition (u : ResolveUniforms) (fragCoord : ℕ × ℕ)
    (coord subCoord : ℤ × ℤ) :
    (temporalUpscale u coord subCoord true = u.colorBuffer subCoord) ∧
    (bayerValue fragCoord.1 fragCoord.2 = u.frame % 16 →
      cloudsResolveMain u fragCoord true = u.colorBuffer (upscaleSubCoord fragCoord)) ∧
    (0 ≤ (upscalePrevUv u subCoord).x → (upscalePrevUv u subCoord).x ≤ 1 →
      0 ≤ (upscalePrevUv u subCoord).y → (upscalePrevUv u subCoord).y ≤ 1 →
      temporalUpscale u coord subCoord false =
        varianceClipping u.colorBuffer subCoord (u.colorBuffer subCoord)
          (u.colorHistoryBuffer (upscalePrevUv u subCoord)) u.varianceGamma) := by
  refine ⟨rfl, ?_, ?_⟩
  · intro hmatch
    simp only [cloudsResolveMain, hmatch, beq_self_eq_true]
    rfl
  · intro hx0 hx1 hy0 hy1
    have hno : ¬uvOutside (upscalePrevUv u subCoord) := by
      unfold uvOutside
      push_neg
      exact ⟨hx0, hx1, hy0, hy1⟩
    simp only [temporalUpscale, Bool.false_eq_true, if_false]
    rw [if_neg hno]

/-- Claim C3 witness: at fragment `(0, 0)` with frame 0 the Bayer priority
matches and the output is the raw current sample; with `currentFrame = false`
and reprojected UV `(0, 1/2)` inside `[0, 1]²` the output is the
variance-clipped history sample. -/
theorem upscale_postcondition_witness :
    temporalUpscale uAccept (0, 0) (0, 0) true = uAccept.colorBuffer (0, 0) ∧
    cloudsResolveMain uAccept (0, 0) true = uAccept.colorBuffer (upscaleSubCoord (0, 0)) ∧
    temporalUpscale uAccept (0, 0) (0, 0) false =
      varianceClipping uAccept.colorBuffer (0, 0) (uAccept.colorBuffer (0, 0))
        (uAccept.colorHistoryBuffer (upscalePrevUv uAccept (0, 0)))
        uAccept.varianceGamma := by
  have hacc : upscalePrevUv uAccept (0, 0) = ⟨0, 1 / 2⟩ := by
    norm_num [upscalePrevUv, getClosestFragment, neighborOffsets, fetchOffset, closerFrag,
      uAccept, zeroDV, v4zero]
  have h := upscale_postcondition uAccept (0, 0) (0, 0) (0, 0)
  refine ⟨h.1, h.2.1 ?_, h.2.2 ?_ ?_ ?_ ?_⟩
  · norm_num [bayerValue, bayerIndices, uAccept]
  · rw [hacc]
  · rw [hacc]; norm_num
  · rw [hacc]; norm_num
  · rw [hacc]; norm_num

/-- Claim C4 (far-plane identity): whenever the depth read at a pixel is at
least `1 - 1e-7` (in particular exactly 1), the compositor returns the input
color unchanged, with no reconstruction or shading applied. -/
theorem aerial_far_plane_identity (d : AerialDefines) (e : AerialExternals)
    (u : AerialUniforms) (inputColor : Vec4) (uv : Vec2)
    (hdepth : e.readDepth uv ≥ 1 - 1 / 10000000) :
    mainImage d e u inputColor uv = inputColor := by
  simp only [mainImage]
  rw [if_pos hdepth]

/-- Claim C4 witness: with depth exactly 1 the output equals the input color
bit for bit. -/
theorem aerial_far_plane_identity_witness :
    mainImage aerialDefinesW aerialExternalsW aerialUniformsW ⟨1 / 2, 1 / 4, 1 / 8, 3 / 4⟩
      ⟨1 / 2, 1 / 2⟩ = ⟨1 / 2, 1 / 4, 1 / 8, 3 / 4⟩ :=
  aerial_far_plane_identity aerialDefinesW aerialExternalsW aerialUniformsW
    ⟨1 / 2, 1 / 4, 1 / 8, 3 / 4⟩ ⟨1 / 2, 1 / 2⟩ (by norm_num [aerialExternalsW])

/-- Claim C5 (horizon-correction interpolation factor): for
`minHeight < maxHeight`, the factor `smoothstep minHeight maxHeight h` is 0
for `h ≤ minHeight`, 1 for `h ≥ maxHeight`, non-decreasing in `h`, and
`correctGeometricError` returns exactly the linear interpolations, by that
factor, of the reconstructed position and normal toward the ellipsoid-derived
ones. -/
theorem horizon_correction_factor (minHeight maxHeight : ℚ)
    (hlt : minHeight < maxHeight) :
    (∀ h, h ≤ minHeight → smoothstep minHeight maxHeight h = 0) ∧
    (∀ h, maxHeight ≤ h → smoothstep minHeight maxHeight h = 1) ∧
    (∀ h1 h2, h1 ≤ h2 →
      smoothstep minHeight maxHeight h1 ≤ smoothstep minHeight maxHeight h2) ∧
    (∀ (e : AerialExternals) (u : AerialUniforms) (worldPosition worldNormal : Vec3),
      correctGeometricError e u minHeight maxHeight worldPosition worldNormal =
        (v3mix worldPosition
            (v3scale u.u_bottom_radius (ellipsoidNormal e u worldPosition))
            (smoothstep minHeight maxHeight u.cameraHeight),
         v3mix worldNormal (ellipsoidNormal e u worldPosition)
            (smoothstep minHeight maxHeight u.cameraHeight))) :=
  ⟨fun h hh => smoothstep_zero _ _ _ hlt hh,
   fun h hh => smoothstep_one _ _ _ hlt hh,
   fun h1 h2 hh => smoothstep_mono _ _ _ _ hlt hh,
   fun e u p nrm => rfl⟩

/-- Claim C5 witness: with range `[0, 100]`, the factor is 0 at height −5,
1 at height 200, and monotone between heights 30 and 60. -/
theorem horizon_correction_factor_witness :
    smoothstep 0 100 (-5) = 0 ∧ smoothstep 0 100 200 = 1 ∧
      smoothstep 0 100 30 ≤ smoothstep 0 100 60 := by
  have h := horizon_correction_factor 0 100 (by norm_num)
  exact ⟨h.1 (-5) (by norm_num), h.2.1 200 (by norm_num), h.2.2.1 30 60 (by norm_num)⟩

/-- Claim C6 amended (variance-clip bound): for every current-frame window,
history sample and nonnegative gamma, the clipped result lies per channel
within `[mean - gamma * variance, mean + gamma * variance]` and on the line
segment from the window mean to the history sample.  (The claim's "for any
gamma" fails for negative gamma, where the box is empty; see the
counterexample.) -/
theorem variance_clipping_bound (tex : ℤ × ℤ → Vec4) (coord : ℤ × ℤ)
    (currentColor historyColor : Vec4) (gamma : ℚ) (hγ : 0 ≤ gamma) :
    ((varMean tex coord).r - gamma * (varVariance tex coord).r ≤
        (varianceClipping tex coord currentColor historyColor gamma).r ∧
      (varianceClipping tex coord currentColor historyColor gamma).r ≤
        (varMean tex coord).r + gamma * (varVariance tex coord).r) ∧
    ((varMean tex coord).g - gamma * (varVariance tex coord).g ≤
        (varianceClipping tex coord currentColor historyColor gamma).g ∧
      (varianceClipping tex coord currentColor historyColor gamma).g ≤
        (varMean tex coord).g + gamma * (varVariance tex coord).g) ∧
    ((varMean tex coord).b - gamma * (varVariance tex coord).b ≤
        (varianceClipping tex coord currentColor historyColor gamma).b ∧
      (varianceClipping tex coord currentColor historyColor gamma).b ≤
        (varMean tex coord).b + gamma * (varVariance tex coord).b) ∧
    ((varMean tex coord).a - gamma * (varVariance tex coord).a ≤
        (varianceClipping tex coord currentColor historyColor gamma).a ∧
      (varianceClipping tex coord currentColor historyColor gamma).a ≤
        (varMean tex coord).a + gamma * (varVariance tex coord).a) ∧
    (∃ t : ℚ, 0 ≤ t ∧ t ≤ 1 ∧
      varianceClipping tex coord currentColor historyColor gamma =
        v4add (varMean tex coord)
          (v4scale t (v4sub historyColor (varMean tex coord)))) := by
  obtain ⟨hvr, hvg, hvb, hva⟩ := varVariance_nonneg tex coord
  have hwr : 0 ≤ (v4scale gamma (varVariance tex coord)).r := mul_nonneg hγ hvr
  have hwg : 0 ≤ (v4scale gamma (varVariance tex coord)).g := mul_nonneg hγ hvg
  have hwb : 0 ≤ (v4scale gamma (varVariance tex coord)).b := mul_nonneg hγ hvb
  have hwa : 0 ≤ (v4scale gamma (varVariance tex coord)).a := mul_nonneg hγ hva
  set hw := v4scale gamma (varVariance tex coord) with hhw
  set disp := v4sub historyColor (varMean tex coord) with hdisp
  set tmin := min (min (clipT hw.r disp.r) (clipT hw.g disp.g))
    (min (clipT hw.b disp.b) (clipT hw.a disp.a)) with htmin
  have hres : varianceClipping tex coord currentColor historyColor gamma =
      v4add (varMean tex coord) (v4scale tmin disp) := rfl
  have ht0 : 0 ≤ tmin :=
    le_min (le_min (clipT_nonneg _ _ hwr) (clipT_nonneg _ _ hwg))
      (le_min (clipT_nonneg _ _ hwb) (clipT_nonneg _ _ hwa))
  have ht1 : tmin ≤ 1 :=
    le_trans (min_le_left _ _) (le_trans (min_le_left _ _) (clipT_le_one _ _ hwr))
  have hbr : |tmin * disp.r| ≤ hw.r :=
    clipT_bound _ _ _ hwr ht0 (le_trans (min_le_left _ _) (min_le_left _ _))
  have hbg : |tmin * disp.g| ≤ hw.g :=
    clipT_bound _ _ _ hwg ht0 (le_trans (min_le_left _ _) (min_le_right _ _))
  have hbb : |tmin * disp.b| ≤ hw.b :=
    clipT_bound _ _ _ hwb ht0 (le_trans (min_le_right _ _) (min_le_left _ _))
  have hba : |tmin * disp.a| ≤ hw.a :=
    clipT_bound _ _ _ hwa ht0 (le_trans (min_le_right _ _) (min_le_right _ _))
  rw [hres]
  obtain ⟨hbr1, hbr2⟩ := abs_le.1 hbr
  obtain ⟨hbg1, hbg2⟩ := abs_le.1 hbg
  obtain ⟨hbb1, hbb2⟩ := abs_le.1 hbb
  obtain ⟨hba1, hba2⟩ := abs_le.1 hba
  simp only [v4add, v4scale, hhw] at *
  refine ⟨⟨by linarith, by linarith⟩, ⟨by linarith, by linarith⟩,
    ⟨by linarith, by linarith⟩, ⟨by linarith, by linarith⟩, ⟨tmin, ht0, ht1, rfl⟩⟩

/-- Claim C6 witness: on a constant window with gamma 3 the red channel of the
clipped result lies in the (degenerate) box around the mean. -/
theorem variance_clipping_bound_witness :
    (varMean texC6W (0, 0)).r - 3 * (varVariance texC6W (0, 0)).r ≤
      (varianceClipping texC6W (0, 0) v4zero ⟨5, 5, 5, 5⟩ 3).r ∧
    (varianceClipping texC6W (0, 0) v4zero ⟨5, 5, 5, 5⟩ 3).r ≤
      (varMean texC6W (0, 0)).r + 3 * (varVariance texC6W (0, 0)).r :=
  (variance_clipping_bound texC6W (0, 0) v4zero ⟨5, 5, 5, 5⟩ 3 (by norm_num)).1

/-- Claim C6 counterexample: with `gamma = -1` on a window with mean 1 and
variance 8, clipping the history sample `(1, 1, 1, 1)` returns red channel 1,
which does not lie in `[mean - gamma * variance, mean + gamma * variance] =
[9, -7]` — the claim's "for any gamma" fails for negative gamma. -/
theorem variance_clipping_cex :
    ¬((varMean texC6 (0, 0)).r - (-1) * (varVariance texC6 (0, 0)).r ≤
        (varianceClipping texC6 (0, 0) v4zero ⟨1, 1, 1, 1⟩ (-1)).r ∧
      (varianceClipping texC6 (0, 0) v4zero ⟨1, 1, 1, 1⟩ (-1)).r ≤
        (varMean texC6 (0, 0)).r + (-1) * (varVariance texC6 (0, 0)).r) := by
  have h1 : (varMean texC6 (0, 0)).r = 1 := by
    simp [varMean, windowSamples, neighborOffsets, fetchOffset, texC6, v4add, v4zero,
      v4scale]
  have h2 : (varVariance texC6 (0, 0)).r = 8 := by
    simp [varVariance, varSqMean, varMean, windowSamples, neighborOffsets, fetchOffset,
      texC6, v4add, v4zero, v4scale, v4mul, v4sub]
    norm_num
  have h3 : (varianceClipping texC6 (0, 0) v4zero ⟨1, 1, 1, 1⟩ (-1)).r = 1 := by
    simp [varianceClipping, clipT, varVariance, varSqMean, varMean, windowSamples,
      neighborOffsets, fetchOffset, texC6, v4add, v4zero, v4scale, v4mul, v4sub]
  rw [h1, h2, h3]
  norm_num

/-- Claim C7 amended (closest-fragment reprojection): whenever at least one of
the nine neighborhood depths is below the `1e7` sentinel, `getClosestFragment`
returns one of the nine neighborhood samples and its depth channel is minimal
among them; in all cases the reprojected source UV equals the destination UV
minus the chosen velocity times the texel size.  (Without that premise the
sentinel `(1e7, 0, 0, 0)` is returned, which need not be a neighborhood
sample; see the counterexample and claim C10.) -/
theorem closest_fragment_min (dv : ℤ × ℤ → Vec4) (coord : ℤ × ℤ)
    (hsome : ∃ off ∈ neighborOffsets, (fetchOffset dv coord off).r < 10000000) :
    (∃ off ∈ neighborOffsets,
      getClosestFragment dv coord = fetchOffset dv coord off) ∧
    (∀ off ∈ neighborOffsets,
      (getClosestFragment dv coord).r ≤ (fetchOffset dv coord off).r) ∧
    (∀ (u : ResolveUniforms) (c : ℤ × ℤ),
      antialiasPrevUv u c =
        ⟨u.vUv.x - (getClosestFragment u.depthVelocityBuffer c).g * u.texelSize.x,
         u.vUv.y - (getClosestFragment u.depthVelocityBuffer c).b * u.texelSize.y⟩) := by
  obtain ⟨off0, hoff0, hlt0⟩ := hsome
  have hle := foldl_closerFrag_le (neighborOffsets.map (fetchOffset dv coord))
    ⟨10000000, 0, 0, 0⟩
  have hmem : (neighborOffsets.map (fetchOffset dv coord)).foldl closerFrag
      ⟨10000000, 0, 0, 0⟩ ∈ neighborOffsets.map (fetchOffset dv coord) := by
    rcases foldl_closerFrag_init_or_mem (neighborOffsets.map (fetchOffset dv coord))
      ⟨10000000, 0, 0, 0⟩ with he | hm
    · exfalso
      have hb := hle.2 (fetchOffset dv coord off0)
        (List.mem_map_of_mem (fetchOffset dv coord) hoff0)
      rw [he] at hb
      exact absurd (lt_of_le_of_lt hb hlt0) (lt_irrefl _)
    · exact hm
  refine ⟨?_, ?_, fun u c => rfl⟩
  · obtain ⟨off, hoff, heq⟩ := List.mem_map.1 hmem
    exact ⟨off, hoff, by rw [getClosestFragment_as_foldl, ← heq]⟩
  · intro off hoff
    rw [getClosestFragment_as_foldl]
    exact hle.2 (fetchOffset dv coord off)
      (List.mem_map_of_mem (fetchOffset dv coord) hoff)

/-- Claim C7 witness: on a buffer with a unique closest fragment of depth 5 at
the center, the returned value is a neighborhood sample of minimal depth and
the reprojection-UV formula holds. -/
theorem closest_fragment_min_witness :
    (∃ off ∈ neighborOffsets,
      getClosestFragment dvC7W (0, 0) = fetchOffset dvC7W (0, 0) off) ∧
    (∀ off ∈ neighborOffsets,
      (getClosestFragment dvC7W (0, 0)).r ≤ (fetchOffset dvC7W (0, 0) off).r) ∧
    (∀ (u : ResolveUniforms) (c : ℤ × ℤ),
      antialiasPrevUv u c =
        ⟨u.vUv.x - (getClosestFragment u.depthVelocityBuffer c).g * u.texelSize.x,
         u.vUv.y - (getClosestFragment u.depthVelocityBuffer c).b * u.texelSize.y⟩) :=
  closest_fragment_min dvC7W (0, 0)
    ⟨(0, 0), by decide, by norm_num [fetchOffset, dvC7W]⟩

/-- Claim C7 counterexample: when all nine depths are `2e7`, the value
returned by `getClosestFragment` is the sentinel `(1e7, 0, 0, 0)`, which is
not equal to any of the nine neighborhood samples — so the used velocity is
not that of any minimal-depth sample. -/
theorem closest_fragment_cex :
    getClosestFragment dvC7 (0, 0) = ⟨10000000, 0, 0, 0⟩ ∧
    getClosestFragment dvC7 (0, 0) ≠ fetchOffset dvC7 (0, 0) (-1, -1) ∧
    getClosestFragment dvC7 (0, 0) ≠ fetchOffset dvC7 (0, 0) (-1, 0) ∧
    getClosestFragment dvC7 (0, 0) ≠ fetchOffset dvC7 (0, 0) (-1, 1) ∧
    getClosestFragment dvC7 (0, 0) ≠ fetchOffset dvC7 (0, 0) (0, -1) ∧
    getClosestFragment dvC7 (0, 0) ≠ fetchOffset dvC7 (0, 0) (0, 0) ∧
    getClosestFragment dvC7 (0, 0) ≠ fetchOffset dvC7 (0, 0) (0, 1) ∧
    getClosestFragment dvC7 (0, 0) ≠ fetchOffset dvC7 (0, 0) (1, -1) ∧
    getClosestFragment dvC7 (0, 0) ≠ fetchOffset dvC7 (0, 0) (1, 0) ∧
    getClosestFragment dvC7 (0, 0) ≠ fetchOffset dvC7 (0, 0) (1, 1) := by
  refine ⟨?_, ?_, ?_, ?_, ?_, ?_, ?_, ?_, ?_, ?_⟩ <;>
    norm_num [getClosestFragment, neighborOffsets, fetchOffset, closerFrag, dvC7]

/-- Claim C8 amended (debug visualization and tone mapping): the seven debug
visualization toggles of `useCloudsControls` are independent booleans (several
can be active at once), and the returned `toneMapping` flag is false exactly
when one of the sample-count, front-depth, UV-flow, shadow-map or
shadow-length visualizations is active; the cascade-index and velocity
visualizations do not suppress tone mapping. -/
theorem debug_tone_mapping_amended :
    ∀ c : CloudsDebugControls,
      cloudsToneMapping c = false ↔
        (c.showSampleCount || c.showFrontDepth || c.showUv || c.showShadowMap ||
          c.showShadowLength) = true := by
  rintro ⟨a, b, c, d, e, f, g⟩
  cases a <;> cases b <;> cases c <;> cases d <;> cases e <;> cases f <;> cases g <;>
    decide

/-- Claim C8 counterexample: the control state with the cascade and velocity
visualizations both enabled has two active visualization overrides (not at
most one) and still returns `toneMapping = true`, so the claimed exclusivity
and unconditional tone-mapping suppression both fail. -/
theorem debug_exclusivity_cex :
    ¬(debugVisualizationCount debugControlsCex ≤ 1 ∧
      (debugVisualizationActive debugControlsCex = true →
        cloudsToneMapping debugControlsCex = false)) := by decide

/-- Claim C9 (alpha frame condition): the compositor's output alpha equals the
input alpha on both the far-plane pass-through branch and the shaded branch,
for every combination of feature toggles. -/
theorem aerial_alpha_preserved (d : AerialDefines) (e : AerialExternals)
    (u : AerialUniforms) (inputColor : Vec4) (uv : Vec2) :
    (mainImage d e u inputColor uv).a = inputColor.a := by
  simp only [mainImage]
  split
  · rfl
  · rfl

/-- Claim C10 (sentinel edge case): if all nine depths in the 3×3 neighborhood
are at least `1e7`, `getClosestFragment` returns the sentinel `(1e7, 0, 0, 0)`,
the reprojected UV equals the destination UV, and for a destination UV inside
`[0, 1]²` history is not rejected: the history-using branch is taken with the
history sampled at `vUv` itself. -/
theorem sentinel_reprojection (u : ResolveUniforms) (coord subCoord : ℤ × ℤ)
    (hdepth : ∀ off ∈ neighborOffsets,
      10000000 ≤ (fetchOffset u.depthVelocityBuffer subCoord off).r)
    (hx0 : 0 ≤ u.vUv.x) (hx1 : u.vUv.x ≤ 1) (hy0 : 0 ≤ u.vUv.y) (hy1 : u.vUv.y ≤ 1) :
    getClosestFragment u.depthVelocityBuffer subCoord = ⟨10000000, 0, 0, 0⟩ ∧
    upscalePrevUv u subCoord = u.vUv ∧
    temporalUpscale u coord subCoord false =
      varianceClipping u.colorBuffer subCoord (u.colorBuffer subCoord)
        (u.colorHistoryBuffer u.vUv) u.varianceGamma := by
  have h1 : getClosestFragment u.depthVelocityBuffer subCoord = ⟨10000000, 0, 0, 0⟩ := by
    rw [getClosestFragment_as_foldl]
    apply foldl_closerFrag_keep
    intro v hv
    obtain ⟨off, hoff, rfl⟩ := List.mem_map.1 hv
    exact hdepth off hoff
  have h2 : upscalePrevUv u subCoord = u.vUv := by
    unfold upscalePrevUv
    rw [h1]
    show Vec2.mk (u.vUv.x - 0 * u.texelSize.x) (u.vUv.y - 0 * u.texelSize.y) = u.vUv
    simp
  have hno : ¬uvOutside (upscalePrevUv u subCoord) := by
    rw [h2]
    unfold uvOutside
    push_neg
    exact ⟨hx0, hx1, hy0, hy1⟩
  refine ⟨h1, h2, ?_⟩
  simp only [temporalUpscale, Bool.false_eq_true, if_false]
  rw [if_neg hno, h2]

/-- Claim C10 witness: with every neighborhood depth `2e7` and destination UV
`(1/2, 1/2)`, the sentinel is returned, the reprojected UV is the destination
UV, and history is used. -/
theorem sentinel_reprojection_witness :
    getClosestFragment uSentinel.depthVelocityBuffer (0, 0) = ⟨10000000, 0, 0, 0⟩ ∧
    upscalePrevUv uSentinel (0, 0) = uSentinel.vUv ∧
    temporalUpscale uSentinel (0, 0) (0, 0) false =
      varianceClipping uSentinel.colorBuffer (0, 0) (uSentinel.colorBuffer (0, 0))
        (uSentinel.colorHistoryBuffer uSentinel.vUv) uSentinel.varianceGamma :=
  sentinel_reprojection uSentinel (0, 0) (0, 0)
    (fun off hoff => by norm_num [fetchOffset, uSentinel])
    (by norm_num [uSentinel]) (by norm_num [uSentinel])
    (by norm_num [uSentinel]) (by norm_num [uSentinel])
